import Mathlib

/-!
Verification development for the YouTube-Content-Optimizer repository.

The Python sources are shallowly embedded: dictionaries become structures or
association lists, JSON files become an explicit `Json` value type, machine
floats become `ℚ`, and every fallible operation returns an `Option` or an
explicit error constructor.  Each definition mirrors one Python function and
is named after it.
-/

namespace YCO

/-! ## String helpers (Python `str` semantics on ASCII text)

These are structural-recursion re-implementations of the Python string
operations used by the analysis code (`lower`, `split`, `startswith`,
`in` (substring), `endswith`), so that all of them evaluate by `decide`.
-/

/-- Boolean list-prefix test (`needle` is a prefix of `haystack`). -/
def isPrefixB : List Char → List Char → Bool
  | [], _ => true
  | _ :: _, [] => false
  | a :: as, b :: bs => a == b && isPrefixB as bs

/-- Boolean substring test on character lists (Python `needle in haystack`). -/
def isInfixB : List Char → List Char → Bool
  | p, [] => p.isEmpty
  | p, c :: tail₀ => isPrefixB p (c :: tail₀) || isInfixB p tail₀

/-- Python `s.lower()` (ASCII). -/
def pyLower (s : String) : String := ⟨s.data.map Char.toLower⟩

/-- Helper for `pyWords`: splits on runs of whitespace, dropping empties. -/
def wordsAux : List Char → List Char → List (List Char)
  | [], acc => if acc.isEmpty then [] else [acc.reverse]
  | c :: cs, acc =>
    if c.isWhitespace then
      if acc.isEmpty then wordsAux cs [] else acc.reverse :: wordsAux cs []
    else wordsAux cs (c :: acc)

/-- Python `s.split()` with no arguments: split on whitespace runs. -/
def pyWords (s : String) : List String := (wordsAux s.data []).map (⟨·⟩)

/-- Python `s.startswith(pre)`. -/
def startsWithB (s pre : String) : Bool := isPrefixB pre.data s.data

/-- Python `pat in s` (substring containment). -/
def containsStr (s pat : String) : Bool := isInfixB pat.data s.data

/-- Python `c in s` for a single character. -/
def containsChar (s : String) (c : Char) : Bool := s.data.any (· == c)

/-- Python `s.endswith(suf)`. -/
def endsWithB (s suf : String) : Bool := isPrefixB suf.data.reverse s.data.reverse

/-- Scanner for the regex `^\d+\s` after the first digit: consume digits, then
require a whitespace character. -/
def afterDigits : List Char → Bool
  | [] => false
  | c :: cs => if c.isDigit then afterDigits cs else c.isWhitespace

/-- Python `re.match(r'^\d+\s', s)`: at least one leading digit followed by a
whitespace character. -/
def leadingNumber (s : String) : Bool :=
  match s.data with
  | [] => false
  | c :: cs => c.isDigit && afterDigits (c :: cs)

/-- Python `sep.join(l)`. -/
def joinSep (sep : String) : List String → String
  | [] => ""
  | [x] => x
  | x :: xs => x ++ sep ++ joinSep sep xs

/-- Python `int(q)`: truncation toward zero. -/
def pyInt (q : ℚ) : ℤ := q.num.tdiv q.den

/-! ## Data model: video records and the niche-keyed store

`competitor_analysis.py` keeps a single JSON document mapping each niche name
to a list of video-record dictionaries.  `Video` carries the record fields the
analysis code reads; fields a record may lack are `Option`s (a Python
dictionary without the key).
-/

/-- Embeds the optional `script_structure` sub-dictionary of a video record,
read by `DataIntegrationModule._analyze_content_dna`. -/
structure ScriptStructure where
  hook_word_count : Option ℚ := none
  section_count : Option ℚ := none
  words_per_minute : Option ℚ := none
  has_clear_transitions : Option Bool := none
  has_cta : Option Bool := none
deriving DecidableEq

/-- Embeds a stored video-record dictionary (the fields the analysed claims
touch; a missing key is `none`). -/
structure Video where
  title : String
  views : Option ℚ := none
  likes : Option ℚ := none
  ctr : Option ℚ := none
  script_structure : Option ScriptStructure := none
  date_added : Option String := none
deriving DecidableEq

/-- The niche-keyed mapping held in `competitor_database.json`: an ordered
association list (Python dict preserves insertion order). -/
abbrev Db := List (String × List Video)

/-- List of niche keys, in dictionary (insertion) order. -/
def dbKeys (db : Db) : List String := db.map (·.1)

/-- Python `db[n]` / `n in db`: first-match association lookup. -/
def dbLookup (db : Db) (n : String) : Option (List Video) :=
  match db with
  | [] => none
  | (k, vs) :: rest => if k == n then some vs else dbLookup rest n

/-- Python `db[n].append(v)`: append to the list stored under key `n`. -/
def dbAppendAt (db : Db) (n : String) (v : Video) : Db :=
  match db with
  | [] => []
  | (k, vs) :: rest =>
    if k == n then (k, vs ++ [v]) :: rest else (k, vs) :: dbAppendAt rest n v

/-- The empty database structure created by
`CompetitorAnalyzer.load_competitor_data` when no file exists. -/
def initialDb : Db := [("productivity", []), ("health_fitness", []), ("ai_tech", [])]

/-! ## JSON values and the store file

`save_competitor_data` is `json.dump(self.competitor_data, f, indent=4)` and
`load_competitor_data` is `json.load(f)`; the `json` standard-library codec is
a collaborator, so the file is modelled as holding the JSON document itself
(`Json`), and the repository-side work is the translation between the
in-memory mapping and that document.
-/

/-- JSON document values (numbers as `ℚ`). -/
inductive Json where
  | null : Json
  | bool (b : Bool) : Json
  | num (q : ℚ) : Json
  | str (s : String) : Json
  | arr (l : List Json) : Json
  | obj (l : List (String × Json)) : Json

/-- Emits a key only when the optional value is present (a Python dict simply
lacks the key otherwise). -/
def optField (k : String) : Option Json → List (String × Json)
  | none => []
  | some j => [(k, j)]

/-- Serializes a `script_structure` sub-dictionary. -/
def encodeSS (ss : ScriptStructure) : Json :=
  .obj (optField "hook_word_count" (ss.hook_word_count.map .num) ++
    optField "section_count" (ss.section_count.map .num) ++
    optField "words_per_minute" (ss.words_per_minute.map .num) ++
    optField "has_clear_transitions" (ss.has_clear_transitions.map .bool) ++
    optField "has_cta" (ss.has_cta.map .bool))

/-- Serializes a video record. -/
def encodeVideo (v : Video) : Json :=
  .obj ([("title", .str v.title)] ++
    optField "views" (v.views.map .num) ++
    optField "likes" (v.likes.map .num) ++
    optField "ctr" (v.ctr.map .num) ++
    optField "script_structure" (v.script_structure.map encodeSS) ++
    optField "date_added" (v.date_added.map .str))

/-- Association lookup in a JSON object. -/
def jGet (l : List (String × Json)) (k : String) : Option Json :=
  match l with
  | [] => none
  | (x, j) :: rest => if x == k then some j else jGet rest k

/-- Reads an optional numeric field back. -/
def decodeOptNum (l : List (String × Json)) (k : String) : Option (Option ℚ) :=
  match jGet l k with
  | none => some none
  | some (.num q) => some (some q)
  | some _ => none

/-- Reads an optional boolean field back. -/
def decodeOptBool (l : List (String × Json)) (k : String) : Option (Option Bool) :=
  match jGet l k with
  | none => some none
  | some (.bool b) => some (some b)
  | some _ => none

/-- Reads an optional string field back. -/
def decodeOptStr (l : List (String × Json)) (k : String) : Option (Option String) :=
  match jGet l k with
  | none => some none
  | some (.str s) => some (some s)
  | some _ => none

/-- Parses a `script_structure` sub-dictionary. -/
def decodeSS (j : Json) : Option ScriptStructure :=
  match j with
  | .obj l =>
    match decodeOptNum l "hook_word_count", decodeOptNum l "section_count",
        decodeOptNum l "words_per_minute", decodeOptBool l "has_clear_transitions",
        decodeOptBool l "has_cta" with
    | some h, some s, some w, some t, some c => some ⟨h, s, w, t, c⟩
    | _, _, _, _, _ => none
  | _ => none

/-- Parses a video record. -/
def decodeVideo (j : Json) : Option Video :=
  match j with
  | .obj l =>
    match jGet l "title" with
    | some (.str t) =>
      match decodeOptNum l "views", decodeOptNum l "likes", decodeOptNum l "ctr" with
      | some vw, some lk, some ct =>
        match jGet l "script_structure" with
        | none =>
          match decodeOptStr l "date_added" with
          | some d => some ⟨t, vw, lk, ct, none, d⟩
          | none => none
        | some jss =>
          match decodeSS jss, decodeOptStr l "date_added" with
          | some ss, some d => some ⟨t, vw, lk, ct, some ss, d⟩
          | _, _ => none
      | _, _, _ => none
    | _ => none
  | _ => none

/-- Parses a list of video records. -/
def decodeVideos : List Json → Option (List Video)
  | [] => some []
  | j :: rest =>
    match decodeVideo j, decodeVideos rest with
    | some v, some vs => some (v :: vs)
    | _, _ => none

/-- Parses the niche-keyed entries of the database document. -/
def decodeDbEntries : List (String × Json) → Option Db
  | [] => some []
  | (k, .arr vl) :: rest =>
    match decodeVideos vl, decodeDbEntries rest with
    | some vs, some db => some ((k, vs) :: db)
    | _, _ => none
  | (_, _) :: _ => none

/-- Parses a whole database document. -/
def decodeDb (j : Json) : Option Db :=
  match j with
  | .obj l => decodeDbEntries l
  | _ => none

/-- Embeds `CompetitorAnalyzer.save_competitor_data`: the document written to
`competitor_database.json`. -/
def saveCompetitorData (db : Db) : Json :=
  .obj (db.map fun p => (p.1, .arr (p.2.map encodeVideo)))

/-- Embeds `CompetitorAnalyzer.load_competitor_data`: a missing file yields the
fresh `initialDb`; an existing file is parsed (a file whose JSON is not a
niche-keyed mapping of record lists gives `none`). -/
def loadCompetitorData : Option Json → Option Db
  | none => some initialDb
  | some j => decodeDb j

/-- Embeds `CompetitorAnalyzer.manual_add_video`: ensure the niche key exists
(a new key is appended at the end, as Python dict insertion does), stamp
`date_added` with the current time, and append the record to the niche list. -/
def manualAddVideo (db : Db) (videoInfo : Video) (niche now : String) : Db :=
  let db' := if (dbLookup db niche).isSome then db else db ++ [(niche, [])]
  dbAppendAt db' niche { videoInfo with date_added := some now }

/-- Status message returned by `manual_add_video`. -/
def manualAddVideoMsg (videoInfo : Video) (niche : String) : String :=
  "Video '" ++ videoInfo.title ++ "' added to " ++ niche ++ " database"

/-! ## Pattern Extractor: `CompetitorAnalyzer.analyze_title_patterns`

Embeds the title-pattern branch counters, the average word count and the
percentage table.  (The keyword-frequency `common_words` table and the
CTR-correlation table are computed independently of these fields and are not
referenced by any property below, so this embedding stops at the fields the
theorems mention.)
-/

/-- Counters of the fixed title-pattern predicate table (`patterns` dict in
`analyze_title_patterns`; note the source never increments `statement`). -/
structure TitlePatternCounts where
  how_to : ℕ
  listicle : ℕ
  question : ℕ
  statement : ℕ
  i_personal : ℕ
  you_focused : ℕ
deriving DecidableEq

/-- Percentage table (`pattern_percentages`). -/
structure TitlePatternUsage where
  how_to : ℚ
  listicle : ℚ
  question : ℚ
  statement : ℚ
  i_personal : ℚ
  you_focused : ℚ
deriving DecidableEq

/-- One step of the `for title in titles` classification loop: the first three
predicates form an `if`/`elif`/`elif` chain, the last two are independent
`if`s. -/
def titlePatternStep (acc : TitlePatternCounts) (title : String) : TitlePatternCounts :=
  let tl := pyLower title
  let acc :=
    if startsWithB tl "how to" || startsWithB tl "how i" then
      { acc with how_to := acc.how_to + 1 }
    else if leadingNumber tl || containsStr tl "ways to" || containsStr tl "tips for" then
      { acc with listicle := acc.listicle + 1 }
    else if endsWithB tl "?" || startsWithB tl "why" || startsWithB tl "what" then
      { acc with question := acc.question + 1 }
    else acc
  let acc :=
    if startsWithB tl "i " || containsStr tl "i tried" || containsStr tl "i tested" then
      { acc with i_personal := acc.i_personal + 1 }
    else acc
  if (pyWords tl).contains "you" || (pyWords tl).contains "your" then
    { acc with you_focused := acc.you_focused + 1 }
  else acc

/-- Classification counters over a title list. -/
def titlePatternCounts (titles : List String) : TitlePatternCounts :=
  titles.foldl titlePatternStep ⟨0, 0, 0, 0, 0, 0⟩

/-- The analysis document returned on success. -/
structure TitleAnalysis where
  total_videos_analyzed : ℕ
  average_word_count : ℚ
  patterns : TitlePatternCounts
  pattern_usage : TitlePatternUsage
deriving DecidableEq

/-- Result of `analyze_title_patterns`: either the `status:error` dictionary
or the analysis document. -/
inductive TAResult where
  | error (message : String) : TAResult
  | ok (a : TitleAnalysis) : TAResult
deriving DecidableEq

/-- Embeds `CompetitorAnalyzer.analyze_title_patterns`. -/
def analyzeTitlePatterns (db : Db) (niche : String) : TAResult :=
  match dbLookup db niche with
  | none => .error ("No data available for niche " ++ niche)
  | some vids =>
    if vids.isEmpty then .error ("No data available for niche " ++ niche)
    else
      let titles := vids.map (·.title)
      let word_counts := titles.map (fun t => (pyWords t).length)
      let avg_word_count : ℚ := (word_counts.sum : ℚ) / (max word_counts.length 1 : ℕ)
      let patterns := titlePatternCounts titles
      let total_videos : ℕ := titles.length
      let pct : ℕ → ℚ := fun v => (v : ℚ) / (total_videos : ℚ) * 100
      .ok
        { total_videos_analyzed := total_videos
          average_word_count := avg_word_count
          patterns := patterns
          pattern_usage :=
            ⟨pct patterns.how_to, pct patterns.listicle, pct patterns.question,
              pct patterns.statement, pct patterns.i_personal, pct patterns.you_focused⟩ }

/-! ## Content-DNA Aggregator: `DataIntegrationModule._analyze_content_dna`

The aggregator is embedded in full: title DNA (keyword frequency with the
stable count-descending sort, structure counters, average title length),
script DNA (the running-average fold, one step per optional
`script_structure` field, in source order), engagement factors, the
conditionally-built `content_dna_patterns` list and the summary.  The
`timestamp` field is the caller's clock reading, passed as the `now`
argument.
-/

/-- One `word_freq[word] = word_freq.get(word, 0) + 1` step on an
insertion-ordered association list (Python dict semantics). -/
def bumpFreq : List (String × ℕ) → String → List (String × ℕ)
  | [], w => [(w, 1)]
  | (x, c) :: rest, w =>
    if x == w then (x, c + 1) :: rest else (x, c) :: bumpFreq rest w

/-- Inserts a pair before the first strictly-smaller count, i.e. after every
earlier pair with an equal or larger count: the stable descending order that
Python `sorted(..., key=lambda x: x[1], reverse=True)` produces. -/
def insertDescBySnd : List (String × ℕ) → String × ℕ → List (String × ℕ)
  | [], p => [p]
  | q :: rest, p =>
    if q.2 < p.2 then p :: q :: rest else q :: insertDescBySnd rest p

/-- Stable sort by count, descending. -/
def sortDescBySnd (l : List (String × ℕ)) : List (String × ℕ) :=
  l.foldl insertDescBySnd []

/-- The `title_structures` counter table, in source (dict-insertion) order.
Each predicate is independent (`if`, not `elif`). -/
def titleStructurePairs (videos : List Video) : List (String × ℕ) :=
  let lowTitles := videos.map (fun v => pyLower v.title)
  [("question", lowTitles.countP (fun t => containsChar t '?')),
    ("number", lowTitles.countP (fun t => t.data.any Char.isDigit)),
    ("how_to", lowTitles.countP (fun t => startsWithB t "how to" || startsWithB t "how i")),
    ("list", lowTitles.countP (fun t =>
      ["top", "best", "ways", "tips"].any (containsStr t))),
    ("emotional", lowTitles.countP (fun t =>
      ["amazing", "incredible", "shocking", "surprising", "best", "worst"].any
        (containsStr t)))]

/-- Python `max(pairs, key=lambda x: x[1])`: the fold keeps the current best
on ties, so the first maximal pair in list order wins. -/
def pyMaxBySnd : List (String × ℕ) → String × ℕ
  | [] => ("", 0)
  | p :: rest => rest.foldl (fun best q => if best.2 < q.2 then q else best) p

/-- The `script_stats` dictionary with its default baseline values. -/
structure ScriptStats where
  avg_hook_words : ℚ
  avg_sections : ℚ
  avg_wpm : ℚ
  transitions_pct : ℚ
  cta_pct : ℚ
deriving DecidableEq

/-- Accumulator of the script-statistics loop: the stats dictionary plus the
five per-field counters. -/
structure ScriptAcc where
  stats : ScriptStats
  hooks : ℕ
  sections : ℕ
  wpm : ℕ
  trans : ℕ
  cta : ℕ
deriving DecidableEq

/-- Initial accumulator: baselines 25 / 5 / 150 / 60 / 80, all counters 0. -/
def initScriptAcc : ScriptAcc := ⟨⟨25, 5, 150, 60, 80⟩, 0, 0, 0, 0, 0⟩

/-- Hook-words update: with previous counter `k`, the source sets
`avg = (avg*(k+1-1) + h) / (k+1)` and the counter to `k+1`. -/
def hookStep (a : ScriptAcc) (ss : ScriptStructure) : ScriptAcc :=
  match ss.hook_word_count with
  | none => a
  | some h =>
    { a with
      stats := { a.stats with
        avg_hook_words := (a.stats.avg_hook_words * a.hooks + h) / (a.hooks + 1) }
      hooks := a.hooks + 1 }

/-- Section-count update, same running-average scheme. -/
def sectionStep (a : ScriptAcc) (ss : ScriptStructure) : ScriptAcc :=
  match ss.section_count with
  | none => a
  | some s =>
    { a with
      stats := { a.stats with
        avg_sections := (a.stats.avg_sections * a.sections + s) / (a.sections + 1) }
      sections := a.sections + 1 }

/-- Words-per-minute update, same running-average scheme. -/
def wpmStep (a : ScriptAcc) (ss : ScriptStructure) : ScriptAcc :=
  match ss.words_per_minute with
  | none => a
  | some w =>
    { a with
      stats := { a.stats with
        avg_wpm := (a.stats.avg_wpm * a.wpm + w) / (a.wpm + 1) }
      wpm := a.wpm + 1 }

/-- Transitions update: the counter advances for every record carrying the
key, but the percentage is rewritten only when the flag is true (the source
has no `else` branch). -/
def transStep (a : ScriptAcc) (ss : ScriptStructure) : ScriptAcc :=
  match ss.has_clear_transitions with
  | none => a
  | some b =>
    if b then
      { a with
        stats := { a.stats with
          transitions_pct :=
            (a.stats.transitions_pct / 100 * a.trans + 1) / (a.trans + 1) * 100 }
        trans := a.trans + 1 }
    else { a with trans := a.trans + 1 }

/-- CTA update, same shape as `transStep`. -/
def ctaStep (a : ScriptAcc) (ss : ScriptStructure) : ScriptAcc :=
  match ss.has_cta with
  | none => a
  | some b =>
    if b then
      { a with
        stats := { a.stats with
          cta_pct := (a.stats.cta_pct / 100 * a.cta + 1) / (a.cta + 1) * 100 }
        cta := a.cta + 1 }
    else { a with cta := a.cta + 1 }

/-- One iteration of the `for video in videos` script loop: a record without
`script_structure` is skipped, otherwise the five field updates run in source
order. -/
def scriptStep (a : ScriptAcc) (v : Video) : ScriptAcc :=
  match v.script_structure with
  | none => a
  | some ss => ctaStep (transStep (wpmStep (sectionStep (hookStep a ss) ss) ss) ss) ss

/-- The whole script-statistics loop. -/
def scriptStatsOf (videos : List Video) : ScriptAcc :=
  videos.foldl scriptStep initScriptAcc

/-- The `avg_likes` value: the likes sum when the first engagement-bearing
record carries a `likes` key, the string `"Not available"` otherwise. -/
inductive AvgLikes where
  | val (q : ℚ) : AvgLikes
  | notAvailable : AvgLikes
deriving DecidableEq

/-- The `engagement_factors` sub-document. -/
structure EngagementFactors where
  avg_views : ℚ
  avg_likes : AvgLikes
deriving DecidableEq

/-- The `title_dna` sub-document: top-20 keywords, the structure table with
counts and percentages, and the average title word count. -/
structure TitleDna where
  keywords : List (String × ℕ)
  structures : List (String × ℕ × ℚ)
  avg_length : ℚ
deriving DecidableEq

/-- The `script_dna` sub-document (`keywords` is always the empty list in the
source). -/
structure ScriptDna where
  stats : ScriptStats
  keywords : List String
deriving DecidableEq

/-- One entry of `content_dna_patterns`: the title/transition/CTA entries
carry `prevalence`, the hook/pace entries carry `value`. -/
structure DnaPattern where
  element : String
  pattern : String
  prevalence : Option ℚ
  value : Option ℚ
  recommendation : String
deriving DecidableEq

/-- The `summary` sub-document. -/
structure DnaSummary where
  title_strategy : String
  pattern_count : ℕ
  top_patterns : List String
  has_script_dna : Bool
deriving DecidableEq

/-- The full ContentDNA analysis document. -/
structure ContentDNA where
  niche : String
  video_count : ℕ
  timestamp : String
  title_dna : TitleDna
  script_dna : ScriptDna
  engagement_factors : Option EngagementFactors
  content_dna_patterns : List DnaPattern
  summary : DnaSummary
deriving DecidableEq

/-- Embeds `DataIntegrationModule._analyze_content_dna`.  `now` is the
`time.strftime` reading taken at the start of the call. -/
def analyzeContentDna (videos : List Video) (niche now : String) : ContentDNA :=
  let titleWords :=
    videos.flatMap (fun v => (pyWords (pyLower v.title)).filter (fun w => 3 < w.length))
  let structPairs := titleStructurePairs videos
  let wordFreq := titleWords.foldl bumpFreq []
  let titleKeywords := (sortDescBySnd wordFreq).take 20
  let titleDna : TitleDna :=
    { keywords := titleKeywords
      structures := structPairs.map
        (fun p => (p.1, p.2, (p.2 : ℚ) / (videos.length : ℚ) * 100))
      avg_length :=
        ((videos.map (fun v => (pyWords v.title).length)).sum : ℚ) / (videos.length : ℚ) }
  let acc := scriptStatsOf videos
  let scriptDna : ScriptDna := { stats := acc.stats, keywords := [] }
  let engagementFactors : Option EngagementFactors :=
    if 1 < videos.length then
      match videos.filter (fun v => v.views.isSome) with
      | [] => none
      | v0 :: rest =>
        some
          { avg_views :=
              (((v0 :: rest).map (fun v => v.views.getD 0)).sum : ℚ) /
                ((v0 :: rest).length : ℚ)
            avg_likes :=
              if v0.likes.isSome then
                .val ((v0 :: rest).map (fun v => v.likes.getD 0)).sum
              else .notAvailable }
    else none
  let top := pyMaxBySnd structPairs
  let titleEntries : List DnaPattern :=
    if 0 < top.2 then
      [{ element := "title"
         pattern := top.1 ++ "_structure"
         prevalence := some ((top.2 : ℚ) / (videos.length : ℚ) * 100)
         value := none
         recommendation := "Use a " ++ top.1 ++ " structure in your title" }]
    else []
  let transEntries : List DnaPattern :=
    if 50 < acc.stats.transitions_pct then
      [{ element := "script", pattern := "clear_transitions"
         prevalence := some acc.stats.transitions_pct, value := none
         recommendation := "Use clear transition phrases between sections of your script" }]
    else []
  let ctaEntries : List DnaPattern :=
    if 50 < acc.stats.cta_pct then
      [{ element := "script", pattern := "verbal_cta"
         prevalence := some acc.stats.cta_pct, value := none
         recommendation := "Include verbal calls to action in your script" }]
    else []
  let hookEntry : DnaPattern :=
    { element := "script", pattern := "hook_length"
      prevalence := none, value := some acc.stats.avg_hook_words
      recommendation :=
        "Use a hook of approximately " ++ toString (pyInt acc.stats.avg_hook_words) ++ " words" }
  let paceEntry : DnaPattern :=
    { element := "script", pattern := "speaking_pace"
      prevalence := none, value := some acc.stats.avg_wpm
      recommendation :=
        "Aim for a speaking pace of " ++ toString (pyInt acc.stats.avg_wpm) ++
          " words per minute" }
  let contentDna := titleEntries ++ transEntries ++ ctaEntries ++ [hookEntry, paceEntry]
  { niche := niche
    video_count := videos.length
    timestamp := now
    title_dna := titleDna
    script_dna := scriptDna
    engagement_factors := engagementFactors
    content_dna_patterns := contentDna
    summary :=
      { title_strategy :=
          "Use " ++ top.1 ++ " structure with keywords: " ++
            joinSep ", " ((titleKeywords.take 5).map (·.1))
        pattern_count := contentDna.length
        top_patterns := (contentDna.take 3).map (·.pattern)
        has_script_dna := true } }

/-- Result of `DataIntegrationModule.run_enhanced_analysis`: the
`success:false` dictionary or the `success:true` dictionary. -/
inductive EnhancedResult where
  | failure (error : String) : EnhancedResult
  | success (analysis_file : String) (video_count : ℕ) (analysis_summary : DnaSummary) :
      EnhancedResult
deriving DecidableEq

/-- Embeds `DataIntegrationModule.run_enhanced_analysis`, with the parsed
content of `competitor_database.json` as input (`db`) and the clock reading as
`now`.  The second emptiness test of the source (`if not enriched_videos`) is
unreachable because `enriched_videos` aliases the already-checked list. -/
def runEnhancedAnalysis (db : Db) (niche now : String) : EnhancedResult :=
  match dbLookup db niche with
  | none => .failure ("No data available for niche: " ++ niche)
  | some vids =>
    if vids.isEmpty then .failure ("No data available for niche: " ++ niche)
    else
      let analysis := analyzeContentDna vids niche now
      .success ("data/enhanced_analysis_" ++ niche ++ ".json") vids.length analysis.summary

/-! ## API integration: `_transform_to_competitor_format` and the engagement
part of `_identify_patterns`

The extraction result (`analysis`) is a nest of dictionaries; each level is a
structure of `Option` fields (a missing key is `none`; `.get(k, default)`
becomes `Option.getD`).  A sub-dictionary that is absent or empty — Python
treats both as falsy — is `none`.
-/

/-- `metadata['basic_info']`. -/
structure ApiBasicInfo where
  title : Option String := none
  channel_name : Option String := none
  publish_date : Option String := none
  length_seconds : Option ℚ := none

/-- `metadata['engagement']`. -/
structure ApiEngagement where
  view_count : Option ℚ := none
  like_count : Option ℚ := none
  comment_count : Option ℚ := none

/-- `metadata['seo']` (called `seo_data` elsewhere). -/
structure ApiSeo where
  description : Option String := none
  tags : List String := []
  category_id : Option String := none

/-- `metadata['content_details']`. -/
structure ApiContentDetails where
  has_caption : Option Bool := none

/-- `metadata['channel_info']`. -/
structure ApiChannelInfo where
  subscriber_count : Option ℚ := none
  video_count : Option ℚ := none
  view_count : Option ℚ := none

/-- `analysis['metadata']`. -/
structure ApiMetadata where
  basic_info : Option ApiBasicInfo := none
  engagement : Option ApiEngagement := none
  seo : Option ApiSeo := none
  content_details : Option ApiContentDetails := none
  channel_info : Option ApiChannelInfo := none

/-- An entry of one of the lists in `analysis['patterns']`; the transformer
only reads `p.get('pattern', '')`. -/
structure ApiPatternEntry where
  pattern : Option String := none

/-- `analysis['patterns']` as built by `_identify_patterns`. -/
structure ApiPatterns where
  title_patterns : List ApiPatternEntry := []
  description_patterns : List ApiPatternEntry := []
  engagement_patterns : List ApiPatternEntry := []

/-- The complete-analysis dictionary, restricted to the keys
`_transform_to_competitor_format` reads. -/
structure ApiAnalysis where
  video_url : Option String := none
  video_id : Option String := none
  metadata : Option ApiMetadata := none
  transcript_available : Option Bool := none
  patterns : Option ApiPatterns := none

/-- `thumbnail` estimate built by the transformer. -/
structure ThumbnailData where
  has_face : Bool
  has_text : Bool
  colors : List String
deriving DecidableEq

/-- `rich_data` extension. -/
structure RichData where
  keywords : List String
  category_id : String
  has_caption : Bool
deriving DecidableEq

/-- `channel_data` extension. -/
structure ChannelData where
  subscriber_count : ℚ
  video_count : ℚ
  total_views : ℚ
deriving DecidableEq

/-- `engagement_metrics` extension: the like-to-view and comment-to-view
percentages. -/
structure EngagementMetrics where
  like_ratio : ℚ
  comment_ratio : ℚ
deriving DecidableEq

/-- `detected_patterns` extension: the pattern-name lists. -/
structure DetectedPatterns where
  title_patterns : List String
  description_patterns : List String
  engagement_patterns : List String
deriving DecidableEq

/-- The transformed competitor-format record returned by
`_transform_to_competitor_format`. -/
structure CompetitorVideoInfo where
  title : String
  channel : String
  url : String
  video_id : String
  views : ℚ
  likes : ℚ
  comments : ℚ
  description : String
  thumbnail : ThumbnailData
  upload_date : String
  duration : ℚ
  rich_data : RichData
  channel_data : Option ChannelData
  engagement_metrics : Option EngagementMetrics
  detected_patterns : Option DetectedPatterns
deriving DecidableEq

/-- Embeds `APIIntegrationModule._infer_face_presence`. -/
def inferFacePresence (title niche : String) : Bool :=
  let tl := pyLower title
  if ["i ", "me", "my", "how i", "i tried"].any (containsStr tl) then true
  else if niche == "health_fitness" || niche == "productivity" then true
  else false

/-- Embeds `APIIntegrationModule._transform_to_competitor_format`. -/
def transformToCompetitorFormat (analysis : ApiAnalysis) (niche : String) :
    CompetitorVideoInfo :=
  let metadata := analysis.metadata.getD {}
  let basic_info := metadata.basic_info.getD {}
  let seo := metadata.seo.getD {}
  let content_details := metadata.content_details.getD {}
  let thumbnail_data : ThumbnailData :=
    { has_face := inferFacePresence (basic_info.title.getD "") niche
      has_text := true
      colors := ["blue", "red", "white"] }
  { title := basic_info.title.getD ""
    channel := basic_info.channel_name.getD ""
    url := analysis.video_url.getD ""
    video_id := analysis.video_id.getD ""
    views := (metadata.engagement.getD {}).view_count.getD 0
    likes := (metadata.engagement.getD {}).like_count.getD 0
    comments := (metadata.engagement.getD {}).comment_count.getD 0
    description := seo.description.getD ""
    thumbnail := thumbnail_data
    upload_date := basic_info.publish_date.getD ""
    duration := basic_info.length_seconds.getD 0
    rich_data :=
      { keywords := seo.tags
        category_id := seo.category_id.getD ""
        has_caption := content_details.has_caption.getD false }
    channel_data :=
      metadata.channel_info.map (fun ci =>
        { subscriber_count := ci.subscriber_count.getD 0
          video_count := ci.video_count.getD 0
          total_views := ci.view_count.getD 0 })
    engagement_metrics :=
      match metadata.engagement with
      | none => none
      | some e =>
        let view_count := e.view_count.getD 0
        if 0 < view_count then
          some
            { like_ratio := e.like_count.getD 0 / view_count * 100
              comment_ratio := e.comment_count.getD 0 / view_count * 100 }
        else none
    detected_patterns :=
      analysis.patterns.map (fun p =>
        { title_patterns := p.title_patterns.map (fun q => q.pattern.getD "")
          description_patterns := p.description_patterns.map (fun q => q.pattern.getD "")
          engagement_patterns := p.engagement_patterns.map (fun q => q.pattern.getD "") }) }

/-- An engagement-pattern entry produced by `_identify_patterns` (the
`pattern` name and the ratio `value`; the `%.2f`-formatted description string
is float formatting of the same value and is not modelled). -/
structure EngPatternEntry where
  pattern : String
  value : ℚ
deriving DecidableEq

/-- Embeds the engagement-patterns portion of
`YouTubeDataExtractor._identify_patterns` (the block computing
`like_ratio`/`comment_ratio` guarded by `view_count > 0`; the title and
description pattern lists of that function are computed independently of the
engagement counts). -/
def identifyEngagementPatterns (engagement : ApiEngagement) : List EngPatternEntry :=
  let view_count := engagement.view_count.getD 0
  let like_count := engagement.like_count.getD 0
  let comment_count := engagement.comment_count.getD 0
  if 0 < view_count then
    [{ pattern := "like_ratio", value := like_count / view_count * 100 },
      { pattern := "comment_ratio", value := comment_count / view_count * 100 }]
  else []

/-! ## Store lemmas -/

/-- Appending into a niche list never changes the key set. -/
lemma dbKeys_dbAppendAt (db : Db) (n : String) (v : Video) :
    dbKeys (dbAppendAt db n v) = dbKeys db := by
  induction db with
  | nil => rfl
  | cons p rest ih =>
    obtain ⟨k, vs⟩ := p
    by_cases h : k = n
    · simp [dbAppendAt, dbKeys, h]
    · simp [dbAppendAt, dbKeys, h]
      exact ih

/-- Key membership agrees with lookup success. -/
lemma dbLookup_isSome_iff (db : Db) (n : String) :
    (dbLookup db n).isSome ↔ n ∈ dbKeys db := by
  induction db with
  | nil => simp [dbLookup, dbKeys]
  | cons p rest ih =>
    obtain ⟨k, vs⟩ := p
    by_cases h : k = n
    · simp [dbLookup, dbKeys, h]
    · simp [dbLookup, dbKeys, h, ih]
      intro he
      exact absurd he.symm h

/-- Keys distribute over list append. -/
lemma dbKeys_append (db₁ db₂ : Db) : dbKeys (db₁ ++ db₂) = dbKeys db₁ ++ dbKeys db₂ :=
  List.map_append _ _ _

/-- Looking up the niche that was appended into. -/
lemma dbLookup_dbAppendAt_self (db : Db) (n : String) (v : Video) (vs : List Video)
    (h : dbLookup db n = some vs) :
    dbLookup (dbAppendAt db n v) n = some (vs ++ [v]) := by
  induction db with
  | nil => simp [dbLookup] at h
  | cons p rest ih =>
    obtain ⟨k, ws⟩ := p
    by_cases hk : k = n
    · simp [dbLookup, hk] at h
      simp [dbAppendAt, dbLookup, hk, h]
    · simp [dbLookup, hk] at h
      simp [dbAppendAt, dbLookup, hk]
      exact ih h

/-- Looking up any other key is unaffected by the append. -/
lemma dbLookup_dbAppendAt_ne (db : Db) (n m : String) (v : Video) (hm : m ≠ n) :
    dbLookup (dbAppendAt db n v) m = dbLookup db m := by
  have hnm : ¬(n = m) := fun he => hm he.symm
  induction db with
  | nil => rfl
  | cons p rest ih =>
    obtain ⟨k, ws⟩ := p
    by_cases hk : k = n
    · subst hk
      simp [dbAppendAt, dbLookup, hnm]
    · simp only [dbAppendAt, dbLookup, if_neg hk, beq_iff_eq]
      by_cases hkm : k = m <;> simp [hkm, ih]

/-! ## C4 -/

/-- C4 counterexample: `manual_add_video` with a niche outside the configured
set adds that niche as a new key, so the fixed-key-set invariant is not
preserved by every operation. -/
theorem c4_keys_not_invariant :
    dbKeys (manualAddVideo initialDb { title := "t" } "cooking" "2024-01-01 00:00:00") ≠
      ["productivity", "health_fitness", "ai_tech"] := by decide

/-- C4 (amended): `load_competitor_data` establishes the fixed niche key set
`productivity, health_fitness, ai_tech` when no file exists, and
`manual_add_video` never removes a key: it preserves the key set exactly when
its niche argument is already a key, and otherwise appends that one niche as a
fresh final key. -/
theorem manualAddVideo_keys :
    (loadCompetitorData none = some initialDb ∧
      dbKeys initialDb = ["productivity", "health_fitness", "ai_tech"]) ∧
    ∀ (db : Db) (v : Video) (n now : String),
      dbKeys (manualAddVideo db v n now) =
        if n ∈ dbKeys db then dbKeys db else dbKeys db ++ [n] := by
  refine ⟨⟨rfl, rfl⟩, ?_⟩
  intro db v n now
  by_cases h : (dbLookup db n).isSome
  · have hmem : n ∈ dbKeys db := (dbLookup_isSome_iff db n).mp h
    simp only [manualAddVideo]
    rw [if_pos h, dbKeys_dbAppendAt, if_pos hmem]
  · have hmem : n ∉ dbKeys db := fun hc => h ((dbLookup_isSome_iff db n).mpr hc)
    simp only [manualAddVideo]
    rw [if_neg h, dbKeys_dbAppendAt, dbKeys_append, if_neg hmem]
    rfl

/-! ## C10 -/

/-- C10: frame property of `manual_add_video` on an existing niche key `n`:
the list under any other key `m` is untouched, and the list under `n` becomes
the previous list with exactly the new record appended at the end, that record
being the input extended with the `date_added` stamp. -/
theorem manualAddVideo_frame (db : Db) (v : Video) (n m now : String) (vs : List Video)
    (hn : dbLookup db n = some vs) (hm : m ≠ n) :
    dbLookup (manualAddVideo db v n now) n = some (vs ++ [{ v with date_added := some now }]) ∧
    dbLookup (manualAddVideo db v n now) m = dbLookup db m := by
  have hsome : (dbLookup db n).isSome := by simp [hn]
  constructor
  · simp only [manualAddVideo, hsome, if_pos]
    exact dbLookup_dbAppendAt_self db n _ vs hn
  · simp only [manualAddVideo, hsome, if_pos]
    exact dbLookup_dbAppendAt_ne db n m _ hm

/-- C10 witness: adding to `productivity` in the fresh store leaves
`health_fitness` unchanged and appends the stamped record. -/
theorem manualAddVideo_frame_witness :
    dbLookup (manualAddVideo initialDb { title := "t" } "productivity" "2024-01-01 00:00:00")
        "productivity" =
      some [{ title := "t", date_added := some "2024-01-01 00:00:00" }] ∧
    dbLookup (manualAddVideo initialDb { title := "t" } "productivity" "2024-01-01 00:00:00")
        "health_fitness" =
      dbLookup initialDb "health_fitness" :=
  manualAddVideo_frame initialDb { title := "t" } "productivity" "health_fitness"
    "2024-01-01 00:00:00" [] (by decide) (by decide)

/-! ## C8: save/load round-trip -/

/-- Decoding inverts encoding for `script_structure`. -/
lemma decodeSS_encodeSS (ss : ScriptStructure) : decodeSS (encodeSS ss) = some ss := by
  obtain ⟨h, s, w, t, c⟩ := ss
  cases h <;> cases s <;> cases w <;> cases t <;> cases c <;> rfl

/-- Decoding inverts encoding for video records. -/
lemma decodeVideo_encodeVideo (v : Video) : decodeVideo (encodeVideo v) = some v := by
  obtain ⟨t, vw, lk, ct, ss, d⟩ := v
  cases ss with
  | none => cases vw <;> cases lk <;> cases ct <;> cases d <;> rfl
  | some s =>
    have hss := decodeSS_encodeSS s
    cases vw <;> cases lk <;> cases ct <;> cases d <;>
      simp [encodeVideo, decodeVideo, jGet, optField, decodeOptNum, decodeOptStr, hss]

/-- Decoding inverts encoding for record lists. -/
lemma decodeVideos_map (l : List Video) : decodeVideos (l.map encodeVideo) = some l := by
  induction l with
  | nil => rfl
  | cons v rest ih => simp [decodeVideos, decodeVideo_encodeVideo, ih]

/-- Decoding inverts encoding for the niche-keyed entries. -/
lemma decodeDbEntries_map (db : Db) :
    decodeDbEntries (db.map fun p => (p.1, Json.arr (p.2.map encodeVideo))) = some db := by
  induction db with
  | nil => rfl
  | cons p rest ih =>
    obtain ⟨k, vs⟩ := p
    simp [decodeDbEntries, decodeVideos_map, ih]

/-- C8: saving the niche-keyed mapping and loading it back reproduces a
structurally equal mapping, for every mapping (in particular for the fixed
niche set extended with freshly added keys). -/
theorem save_load_roundTrip (db : Db) :
    loadCompetitorData (some (saveCompetitorData db)) = some db := by
  simp [loadCompetitorData, saveCompetitorData, decodeDb, decodeDbEntries_map]

/-! ## C5: empty or absent niche gives an explicit error result -/

/-- C5: for a niche whose key is absent or whose stored list is empty, both
`analyze_title_patterns` and `run_enhanced_analysis` return their explicit
error-result objects (no exception, no NaN-bearing document). -/
theorem empty_niche_error (db : Db) (niche now : String)
    (h : dbLookup db niche = none ∨ dbLookup db niche = some []) :
    analyzeTitlePatterns db niche = .error ("No data available for niche " ++ niche) ∧
    runEnhancedAnalysis db niche now = .failure ("No data available for niche: " ++ niche) := by
  rcases h with h | h <;> simp [analyzeTitlePatterns, runEnhancedAnalysis, h]

/-- C5 witness: the fresh store has `productivity` mapped to the empty list. -/
theorem empty_niche_error_witness :
    analyzeTitlePatterns initialDb "productivity" =
      .error ("No data available for niche " ++ "productivity") ∧
    runEnhancedAnalysis initialDb "productivity" "2024-01-01 00:00:00" =
      .failure ("No data available for niche: " ++ "productivity") :=
  empty_niche_error initialDb "productivity" "2024-01-01 00:00:00" (Or.inr (by decide))

/-! ## C6: the three-title example -/

/-- The three example titles, stored under `productivity`. -/
def c6Vids : List Video :=
  [{ title := "How to Focus Better" }, { title := "5 Tips for Sleep" },
    { title := "Why Diets Fail?" }]

/-- A store holding exactly the example titles. -/
def c6Db : Db := [("productivity", c6Vids)]

/-- C6: on the titles `How to Focus Better`, `5 Tips for Sleep`,
`Why Diets Fail?` the extractor counts how_to = listicle = question = 1 and
reports a usage percentage of 100/3 for each of the three (the remaining
counters stay 0; the average word count is 11/3). -/
theorem example_three_titles :
    analyzeTitlePatterns c6Db "productivity" =
      .ok ⟨3, 11 / 3, ⟨1, 1, 1, 0, 0, 0⟩, ⟨100 / 3, 100 / 3, 100 / 3, 0, 0, 0⟩⟩ := by
  have h3 : dbLookup c6Db "productivity" = some c6Vids := by decide
  have hc : titlePatternCounts ["How to Focus Better", "5 Tips for Sleep", "Why Diets Fail?"] =
      ⟨1, 1, 1, 0, 0, 0⟩ := by decide
  have hw1 : (pyWords "How to Focus Better").length = 4 := by decide
  have hw2 : (pyWords "5 Tips for Sleep").length = 4 := by decide
  have hw3 : (pyWords "Why Diets Fail?").length = 3 := by decide
  simp only [analyzeTitlePatterns, h3]
  norm_num [c6Vids, hc, hw1, hw2, hw3]

/-! ## C1: determinism of the aggregator -/

/-- Clears the `timestamp` field of a ContentDNA document. -/
def stripTimestamp (d : ContentDNA) : ContentDNA := { d with timestamp := "" }

/-- A minimal one-record input for the determinism statements. -/
def c1Vid : Video := { title := "a" }

/-- C1 counterexample: the aggregator stamps the document with the wall-clock
reading taken during the call, so two invocations on identical arguments at
different times produce different (not byte-identical) documents: the
aggregator is not a function of its two arguments alone. -/
theorem analyzeContentDna_not_deterministic :
    analyzeContentDna [c1Vid] "productivity" "2024-01-01 00:00:00" ≠
      analyzeContentDna [c1Vid] "productivity" "2024-01-01 00:00:01" := by
  intro h
  have ht : ("2024-01-01 00:00:00" : String) = "2024-01-01 00:00:01" :=
    congrArg ContentDNA.timestamp h
  exact absurd ht (by decide)

/-- C1 (amended): apart from the `timestamp` field, which records the
wall-clock time of the invocation, the aggregator is a deterministic function
of the niche name and the video list: any two invocations on the same
non-empty input agree once the timestamp field is cleared. -/
theorem analyzeContentDna_deterministic (videos : List Video) (niche now₁ now₂ : String)
    (_hne : videos ≠ []) :
    stripTimestamp (analyzeContentDna videos niche now₁) =
      stripTimestamp (analyzeContentDna videos niche now₂) := rfl

/-- C1 witness for the amended determinism statement. -/
theorem analyzeContentDna_deterministic_witness :
    stripTimestamp (analyzeContentDna [c1Vid] "productivity" "2024-01-01 00:00:00") =
      stripTimestamp (analyzeContentDna [c1Vid] "productivity" "2024-01-01 00:00:01") :=
  analyzeContentDna_deterministic [c1Vid] "productivity" "2024-01-01 00:00:00"
    "2024-01-01 00:00:01" (by decide)

/-! ## Script-statistics fold lemmas (C2, C3)

Each of the five statistics only depends on the values of its own optional
field, in input order.  `…Vals` extracts that value sequence; a compressed
step function on `(current value, counter)` mirrors the source update; the
projection lemmas relate the full fold to the compressed one.
-/

/-- Hook word counts of exactly the records whose `script_structure` carries
the key. -/
def hookVals (videos : List Video) : List ℚ :=
  videos.filterMap (fun v => v.script_structure.bind (·.hook_word_count))

/-- Section counts of exactly the records carrying the key. -/
def sectionVals (videos : List Video) : List ℚ :=
  videos.filterMap (fun v => v.script_structure.bind (·.section_count))

/-- Words-per-minute values of exactly the records carrying the key. -/
def wpmVals (videos : List Video) : List ℚ :=
  videos.filterMap (fun v => v.script_structure.bind (·.words_per_minute))

/-- Transition flags of exactly the records carrying the key. -/
def transVals (videos : List Video) : List Bool :=
  videos.filterMap (fun v => v.script_structure.bind (·.has_clear_transitions))

/-- CTA flags of exactly the records carrying the key. -/
def ctaVals (videos : List Video) : List Bool :=
  videos.filterMap (fun v => v.script_structure.bind (·.has_cta))

/-- Compressed running-average update on `(average, counter)`. -/
def meanStep (p : ℚ × ℕ) (x : ℚ) : ℚ × ℕ :=
  ((p.1 * (p.2 : ℚ) + x) / ((p.2 : ℚ) + 1), p.2 + 1)

/-- Compressed percentage update on `(percentage, counter)`: the counter
always advances, the percentage is rewritten only for a `true` flag. -/
def pctStep (p : ℚ × ℕ) (b : Bool) : ℚ × ℕ :=
  if b then ((p.1 / 100 * (p.2 : ℚ) + 1) / ((p.2 : ℚ) + 1) * 100, p.2 + 1)
  else (p.1, p.2 + 1)

/-- One `scriptStep` acts on the hook pair exactly as the compressed update
on the record's optional hook value. -/
lemma scriptStep_hookPair (a : ScriptAcc) (v : Video) :
    ((scriptStep a v).stats.avg_hook_words, (scriptStep a v).hooks) =
      (v.script_structure.bind (·.hook_word_count)).elim (a.stats.avg_hook_words, a.hooks)
        (meanStep (a.stats.avg_hook_words, a.hooks)) := by
  obtain ⟨tt, vw, lk, ctr, ss, d⟩ := v
  rcases ss with _ | ⟨oh, os, ow, ot, oc⟩
  · rfl
  · rcases oh with _ | h <;> rcases os with _ | s <;> rcases ow with _ | w <;>
      rcases ot with _ | t <;> rcases oc with _ | c <;>
      first
        | rfl
        | (cases t <;> cases c <;> rfl)
        | (cases t <;> rfl)
        | (cases c <;> rfl)

/-- `scriptStep` action on the sections pair. -/
lemma scriptStep_sectionPair (a : ScriptAcc) (v : Video) :
    ((scriptStep a v).stats.avg_sections, (scriptStep a v).sections) =
      (v.script_structure.bind (·.section_count)).elim (a.stats.avg_sections, a.sections)
        (meanStep (a.stats.avg_sections, a.sections)) := by
  obtain ⟨tt, vw, lk, ctr, ss, d⟩ := v
  rcases ss with _ | ⟨oh, os, ow, ot, oc⟩
  · rfl
  · rcases oh with _ | h <;> rcases os with _ | s <;> rcases ow with _ | w <;>
      rcases ot with _ | t <;> rcases oc with _ | c <;>
      first
        | rfl
        | (cases t <;> cases c <;> rfl)
        | (cases t <;> rfl)
        | (cases c <;> rfl)

/-- `scriptStep` action on the words-per-minute pair. -/
lemma scriptStep_wpmPair (a : ScriptAcc) (v : Video) :
    ((scriptStep a v).stats.avg_wpm, (scriptStep a v).wpm) =
      (v.script_structure.bind (·.words_per_minute)).elim (a.stats.avg_wpm, a.wpm)
        (meanStep (a.stats.avg_wpm, a.wpm)) := by
  obtain ⟨tt, vw, lk, ctr, ss, d⟩ := v
  rcases ss with _ | ⟨oh, os, ow, ot, oc⟩
  · rfl
  · rcases oh with _ | h <;> rcases os with _ | s <;> rcases ow with _ | w <;>
      rcases ot with _ | t <;> rcases oc with _ | c <;>
      first
        | rfl
        | (cases t <;> cases c <;> rfl)
        | (cases t <;> rfl)
        | (cases c <;> rfl)

/-- `scriptStep` action on the transitions pair. -/
lemma scriptStep_transPair (a : ScriptAcc) (v : Video) :
    ((scriptStep a v).stats.transitions_pct, (scriptStep a v).trans) =
      (v.script_structure.bind (·.has_clear_transitions)).elim (a.stats.transitions_pct, a.trans)
        (pctStep (a.stats.transitions_pct, a.trans)) := by
  obtain ⟨tt, vw, lk, ctr, ss, d⟩ := v
  rcases ss with _ | ⟨oh, os, ow, ot, oc⟩
  · rfl
  · rcases oh with _ | h <;> rcases os with _ | s <;> rcases ow with _ | w <;>
      rcases ot with _ | t <;> rcases oc with _ | c <;>
      first
        | rfl
        | (cases t <;> cases c <;> rfl)
        | (cases t <;> rfl)
        | (cases c <;> rfl)

/-- `scriptStep` action on the CTA pair. -/
lemma scriptStep_ctaPair (a : ScriptAcc) (v : Video) :
    ((scriptStep a v).stats.cta_pct, (scriptStep a v).cta) =
      (v.script_structure.bind (·.has_cta)).elim (a.stats.cta_pct, a.cta)
        (pctStep (a.stats.cta_pct, a.cta)) := by
  obtain ⟨tt, vw, lk, ctr, ss, d⟩ := v
  rcases ss with _ | ⟨oh, os, ow, ot, oc⟩
  · rfl
  · rcases oh with _ | h <;> rcases os with _ | s <;> rcases ow with _ | w <;>
      rcases ot with _ | t <;> rcases oc with _ | c <;>
      first
        | rfl
        | (cases t <;> cases c <;> rfl)
        | (cases t <;> rfl)
        | (cases c <;> rfl)

/-- Generic projection of the script fold onto a compressed fold: if each
step acts on the projection `f` through the extracted optional value `g`,
the whole fold acts through `filterMap g`. -/
lemma foldl_scriptStep_proj {σ β : Type} (f : ScriptAcc → σ) (g : Video → Option β)
    (st : σ → β → σ)
    (hstep : ∀ a v, f (scriptStep a v) = (g v).elim (f a) (st (f a))) :
    ∀ (videos : List Video) (a : ScriptAcc),
      f (videos.foldl scriptStep a) = (videos.filterMap g).foldl st (f a) := by
  intro videos
  induction videos with
  | nil => intro a; rfl
  | cons v rest ih =>
    intro a
    rw [List.foldl_cons, ih, hstep a v, List.filterMap_cons]
    cases g v <;> rfl

/-- The aggregated hook average as a compressed fold over `hookVals`. -/
lemma scriptStatsOf_hook (videos : List Video) :
    (scriptStatsOf videos).stats.avg_hook_words =
      ((hookVals videos).foldl meanStep (25, 0)).1 :=
  congrArg Prod.fst
    (foldl_scriptStep_proj (fun a => (a.stats.avg_hook_words, a.hooks))
      (fun v => v.script_structure.bind (·.hook_word_count)) meanStep
      scriptStep_hookPair videos initScriptAcc)

/-- The aggregated section average as a compressed fold over `sectionVals`. -/
lemma scriptStatsOf_sections (videos : List Video) :
    (scriptStatsOf videos).stats.avg_sections =
      ((sectionVals videos).foldl meanStep (5, 0)).1 :=
  congrArg Prod.fst
    (foldl_scriptStep_proj (fun a => (a.stats.avg_sections, a.sections))
      (fun v => v.script_structure.bind (·.section_count)) meanStep
      scriptStep_sectionPair videos initScriptAcc)

/-- The aggregated pace average as a compressed fold over `wpmVals`. -/
lemma scriptStatsOf_wpm (videos : List Video) :
    (scriptStatsOf videos).stats.avg_wpm =
      ((wpmVals videos).foldl meanStep (150, 0)).1 :=
  congrArg Prod.fst
    (foldl_scriptStep_proj (fun a => (a.stats.avg_wpm, a.wpm))
      (fun v => v.script_structure.bind (·.words_per_minute)) meanStep
      scriptStep_wpmPair videos initScriptAcc)

/-- The aggregated transitions percentage as a compressed fold over
`transVals`. -/
lemma scriptStatsOf_trans (videos : List Video) :
    (scriptStatsOf videos).stats.transitions_pct =
      ((transVals videos).foldl pctStep (60, 0)).1 :=
  congrArg Prod.fst
    (foldl_scriptStep_proj (fun a => (a.stats.transitions_pct, a.trans))
      (fun v => v.script_structure.bind (·.has_clear_transitions)) pctStep
      scriptStep_transPair videos initScriptAcc)

/-- The aggregated CTA percentage as a compressed fold over `ctaVals`. -/
lemma scriptStatsOf_cta (videos : List Video) :
    (scriptStatsOf videos).stats.cta_pct =
      ((ctaVals videos).foldl pctStep (80, 0)).1 :=
  congrArg Prod.fst
    (foldl_scriptStep_proj (fun a => (a.stats.cta_pct, a.cta))
      (fun v => v.script_structure.bind (·.has_cta)) pctStep
      scriptStep_ctaPair videos initScriptAcc)

/-- Running the mean update from an exact average `S / k` accumulates the sum
and the count. -/
lemma foldl_meanStep_go (l : List ℚ) :
    ∀ (S : ℚ) (k : ℕ), 0 < k →
      l.foldl meanStep (S / (k : ℚ), k) =
        ((S + l.sum) / ((k : ℚ) + (l.length : ℚ)), k + l.length) := by
  induction l with
  | nil => intro S k _; simp
  | cons x t ih =>
    intro S k hk
    have hk0 : ((k : ℚ)) ≠ 0 := Nat.cast_ne_zero.mpr hk.ne'
    have hstep : meanStep (S / (k : ℚ), k) x = ((S + x) / ((k + 1 : ℕ) : ℚ), k + 1) := by
      simp only [meanStep, div_mul_cancel₀ _ hk0]
      push_cast
      ring_nf
    rw [List.foldl_cons, hstep, ih (S + x) (k + 1) k.succ_pos]
    simp only [Prod.mk.injEq, List.length_cons, List.sum_cons]
    constructor
    · push_cast
      ring_nf
    · omega

/-- The running mean over the whole value list is the arithmetic mean, and
the baseline survives exactly the empty list. -/
lemma foldl_meanStep_spec (l : List ℚ) (a₀ : ℚ) :
    (l.foldl meanStep (a₀, 0)).1 =
      if l = [] then a₀ else l.sum / (l.length : ℚ) := by
  cases l with
  | nil => rfl
  | cons x t =>
    have h1 : meanStep (a₀, 0) x = (x / ((1 : ℕ) : ℚ), 1) := by
      simp [meanStep]
    rw [List.foldl_cons, h1, foldl_meanStep_go t x 1 one_pos]
    have : ((x :: t) : List ℚ) ≠ [] := by simp
    simp only [this, if_neg, List.sum_cons, List.length_cons]
    push_cast
    ring_nf

/-- From an exact 100, an all-true flag list keeps the percentage at 100. -/
lemma foldl_pctStep_hundred (l : List Bool) :
    ∀ k : ℕ, (∀ b ∈ l, b = true) → (l.foldl pctStep (100, k)).1 = 100 := by
  induction l with
  | nil => intro k _; rfl
  | cons b t ih =>
    intro k hall
    have hb : b = true := hall b (by simp)
    subst hb
    have hk : ((k : ℚ) + 1) ≠ 0 := by positivity
    have h1 : pctStep (100, k) true = (100, k + 1) := by
      simp only [pctStep, if_pos]
      rw [Prod.mk.injEq]
      refine ⟨?_, rfl⟩
      field_simp
    rw [List.foldl_cons, h1]
    exact ih (k + 1) (fun b hb => hall b (by simp [hb]))

/-- A non-empty all-true flag list drives the percentage to exactly 100,
whatever the baseline: the first true record wipes it. -/
lemma foldl_pctStep_allTrue (l : List Bool) (p : ℚ) (hne : l ≠ [])
    (hall : ∀ b ∈ l, b = true) : (l.foldl pctStep (p, 0)).1 = 100 := by
  cases l with
  | nil => exact absurd rfl hne
  | cons b t =>
    have hb : b = true := hall b (by simp)
    subst hb
    have h1 : pctStep (p, 0) true = (100, 1) := by
      norm_num [pctStep]
    rw [List.foldl_cons, h1]
    exact foldl_pctStep_hundred t 1 (fun b hb => hall b (by simp [hb]))

/-! ## C3: the three running averages are arithmetic means -/

/-- C3: `avg_hook_words` is the arithmetic mean of `hook_word_count` over
exactly the records whose `script_structure` carries that key (baseline 25
when none does), and likewise `avg_sections` (baseline 5) and `avg_wpm`
(baseline 150); records without `script_structure` contribute nothing. -/
theorem scriptStats_are_means (videos : List Video) (niche now : String) :
    ((analyzeContentDna videos niche now).script_dna.stats.avg_hook_words =
      if hookVals videos = [] then 25
      else (hookVals videos).sum / ((hookVals videos).length : ℚ)) ∧
    ((analyzeContentDna videos niche now).script_dna.stats.avg_sections =
      if sectionVals videos = [] then 5
      else (sectionVals videos).sum / ((sectionVals videos).length : ℚ)) ∧
    ((analyzeContentDna videos niche now).script_dna.stats.avg_wpm =
      if wpmVals videos = [] then 150
      else (wpmVals videos).sum / ((wpmVals videos).length : ℚ)) := by
  have hproj : (analyzeContentDna videos niche now).script_dna.stats =
      (scriptStatsOf videos).stats := rfl
  refine ⟨?_, ?_, ?_⟩ <;> rw [hproj]
  · rw [scriptStatsOf_hook, foldl_meanStep_spec]
  · rw [scriptStatsOf_sections, foldl_meanStep_spec]
  · rw [scriptStatsOf_wpm, foldl_meanStep_spec]

/-! ## C2: the transitions/CTA percentages -/

/-- In an all-true flag list, the true-count is the length. -/
lemma count_true_of_allTrue (l : List Bool) (h : ∀ b ∈ l, b = true) :
    l.count true = l.length := by
  induction l with
  | nil => rfl
  | cons b t ih =>
    have hb : b = true := h b (by simp)
    subst hb
    simp [ih (fun b hb => h b (by simp [hb]))]

/-- A one-record input whose `script_structure` carries
`has_clear_transitions: false`. -/
def c2FalseVid : Video :=
  { title := "x", script_structure := some { has_clear_transitions := some false } }

/-- A one-record input with both flags true. -/
def c2TrueVid : Video :=
  { title := "x",
    script_structure := some { has_clear_transitions := some true, has_cta := some true } }

/-- C2 counterexample: on a single record carrying
`has_clear_transitions: false` the code leaves `transitions_pct` at the
baseline 60, while the claimed ratio formula demands `100 * 0 / 1 = 0`. -/
theorem transitions_pct_not_ratio :
    (analyzeContentDna [c2FalseVid] "productivity" "2024-01-01 00:00:00").script_dna.stats.transitions_pct ≠
      100 * (((transVals [c2FalseVid]).count true : ℚ)) / ((transVals [c2FalseVid]).length : ℚ) := by
  have h1 : transVals [c2FalseVid] = [false] := by decide
  have h2 : (analyzeContentDna [c2FalseVid] "productivity"
      "2024-01-01 00:00:00").script_dna.stats.transitions_pct = 60 := rfl
  rw [h1, h2]
  norm_num

/-- C2 (amended): a record whose flag is false only advances the internal
counter and leaves the percentage unchanged, so the claimed ratio formula
holds only in the degenerate directions: the baselines 60 and 80 are returned
whenever no record carries the respective key, and when every record carrying
the key has it true the percentage equals `100 * true-count / keyed-count`
(that is, exactly 100). -/
theorem transitions_cta_pct_spec (videos : List Video) (niche now : String) :
    (transVals videos = [] →
      (analyzeContentDna videos niche now).script_dna.stats.transitions_pct = 60) ∧
    (transVals videos ≠ [] → (∀ b ∈ transVals videos, b = true) →
      (analyzeContentDna videos niche now).script_dna.stats.transitions_pct =
        100 * (((transVals videos).count true : ℚ)) / ((transVals videos).length : ℚ)) ∧
    (ctaVals videos = [] →
      (analyzeContentDna videos niche now).script_dna.stats.cta_pct = 80) ∧
    (ctaVals videos ≠ [] → (∀ b ∈ ctaVals videos, b = true) →
      (analyzeContentDna videos niche now).script_dna.stats.cta_pct =
        100 * (((ctaVals videos).count true : ℚ)) / ((ctaVals videos).length : ℚ)) ∧
    (∀ (a : ScriptAcc) (ss : ScriptStructure), ss.has_clear_transitions = some false →
      transStep a ss = { a with trans := a.trans + 1 }) ∧
    (∀ (a : ScriptAcc) (ss : ScriptStructure), ss.has_cta = some false →
      ctaStep a ss = { a with cta := a.cta + 1 }) := by
  have hproj : (analyzeContentDna videos niche now).script_dna.stats =
      (scriptStatsOf videos).stats := rfl
  refine ⟨?_, ?_, ?_, ?_, ?_, ?_⟩
  · intro h
    rw [hproj, scriptStatsOf_trans, h]
    rfl
  · intro hne hall
    have hlen : ((transVals videos).length : ℚ) ≠ 0 := by
      have := List.length_pos_iff_ne_nil.mpr hne
      positivity
    rw [hproj, scriptStatsOf_trans, foldl_pctStep_allTrue _ _ hne hall,
      count_true_of_allTrue _ hall, mul_div_assoc, div_self hlen, mul_one]
  · intro h
    rw [hproj, scriptStatsOf_cta, h]
    rfl
  · intro hne hall
    have hlen : ((ctaVals videos).length : ℚ) ≠ 0 := by
      have := List.length_pos_iff_ne_nil.mpr hne
      positivity
    rw [hproj, scriptStatsOf_cta, foldl_pctStep_allTrue _ _ hne hall,
      count_true_of_allTrue _ hall, mul_div_assoc, div_self hlen, mul_one]
  · intro a ss h
    simp [transStep, h]
  · intro a ss h
    simp [ctaStep, h]

/-- C2 witness: one all-true record makes the transitions percentage equal to
the claimed ratio (here 100). -/
theorem transitions_cta_pct_spec_witness :
    (analyzeContentDna [c2TrueVid] "productivity" "2024-01-01 00:00:00").script_dna.stats.transitions_pct =
      100 * (((transVals [c2TrueVid]).count true : ℚ)) / ((transVals [c2TrueVid]).length : ℚ) :=
  (transitions_cta_pct_spec [c2TrueVid] "productivity" "2024-01-01 00:00:00").2.1
    (by decide) (by decide)

/-! ## C7: the content-DNA pattern list

`pyMaxBySnd` is Python's `max(..., key=lambda x: x[1])`: the lemmas below pin
it down as the first pair, in list order, achieving the maximal count.
-/

/-- The running best never decreases through the max fold. -/
lemma foldlMax_init_le (l : List (String × ℕ)) :
    ∀ init, init.2 ≤ (l.foldl (fun best q => if best.2 < q.2 then q else best) init).2 := by
  induction l with
  | nil => intro init; exact le_refl _
  | cons q t ih =>
    intro init
    rw [List.foldl_cons]
    by_cases h : init.2 < q.2
    · simp only [if_pos h]
      exact le_trans h.le (ih q)
    · simp only [if_neg h]
      exact ih init

/-- Every element's count is bounded by the fold result. -/
lemma foldlMax_le (l : List (String × ℕ)) :
    ∀ init p, p ∈ l →
      p.2 ≤ (l.foldl (fun best q => if best.2 < q.2 then q else best) init).2 := by
  induction l with
  | nil => intro init p hp; cases hp
  | cons q t ih =>
    intro init p hp
    rw [List.foldl_cons]
    rcases List.mem_cons.mp hp with rfl | hp'
    · by_cases h : init.2 < p.2
      · simp only [if_pos h]
        exact foldlMax_init_le t p
      · simp only [if_neg h]
        exact le_trans (le_of_not_lt h) (foldlMax_init_le t init)
    · exact ih _ p hp'

/-- The fold result is the initial pair or an element of the list. -/
lemma foldlMax_mem (l : List (String × ℕ)) :
    ∀ init, (l.foldl (fun best q => if best.2 < q.2 then q else best) init) = init ∨
      (l.foldl (fun best q => if best.2 < q.2 then q else best) init) ∈ l := by
  induction l with
  | nil => intro init; exact Or.inl rfl
  | cons q t ih =>
    intro init
    rw [List.foldl_cons]
    by_cases h : init.2 < q.2
    · simp only [if_pos h]
      rcases ih q with he | hm
      · exact Or.inr (by rw [he]; exact List.mem_cons_self _ _)
      · exact Or.inr (List.mem_cons_of_mem _ hm)
    · simp only [if_neg h]
      rcases ih init with he | hm
      · exact Or.inl he
      · exact Or.inr (List.mem_cons_of_mem _ hm)

/-- Either the initial pair survives, or the fold result is the first list
element achieving its (strictly larger) count: the source tie-break keeps the
earlier pair. -/
lemma foldlMax_first (l : List (String × ℕ)) :
    ∀ init,
      (l.foldl (fun best q => if best.2 < q.2 then q else best) init = init) ∨
      (init.2 < (l.foldl (fun best q => if best.2 < q.2 then q else best) init).2 ∧
        l.find?
            (fun p =>
              p.2 == (l.foldl (fun best q => if best.2 < q.2 then q else best) init).2) =
          some (l.foldl (fun best q => if best.2 < q.2 then q else best) init)) := by
  induction l with
  | nil => intro init; exact Or.inl rfl
  | cons q t ih =>
    intro init
    rw [List.foldl_cons]
    by_cases h : init.2 < q.2
    · simp only [if_pos h]
      right
      rcases ih q with he | ⟨hlt, hfind⟩
      · rw [he]
        exact ⟨h, by rw [List.find?_cons_of_pos _ (by simp)]⟩
      · refine ⟨lt_trans h hlt, ?_⟩
        rw [List.find?_cons_of_neg _ (by simp [Nat.ne_of_lt hlt]), hfind]
    · simp only [if_neg h]
      rcases ih init with he | ⟨hlt, hfind⟩
      · exact Or.inl he
      · right
        have hq : q.2 < (t.foldl (fun best q => if best.2 < q.2 then q else best) init).2 :=
          lt_of_le_of_lt (le_of_not_lt h) hlt
        exact ⟨hlt, by rw [List.find?_cons_of_neg _ (by simp [Nat.ne_of_lt hq]), hfind]⟩

/-- `pyMaxBySnd` of a non-empty list is a member achieving the maximal count,
and it is the first such member in list order (the Python `max` tie-break). -/
lemma pyMaxBySnd_isMax (l : List (String × ℕ)) (hne : l ≠ []) :
    pyMaxBySnd l ∈ l ∧ (∀ q ∈ l, q.2 ≤ (pyMaxBySnd l).2) ∧
      l.find? (fun q => q.2 == (pyMaxBySnd l).2) = some (pyMaxBySnd l) := by
  cases l with
  | nil => exact absurd rfl hne
  | cons p rest =>
    have hdef : pyMaxBySnd (p :: rest) =
        rest.foldl (fun best q => if best.2 < q.2 then q else best) p := rfl
    rw [hdef]
    refine ⟨?_, ?_, ?_⟩
    · rcases foldlMax_mem rest p with he | hm
      · rw [he]
        exact List.mem_cons_self _ _
      · exact List.mem_cons_of_mem _ hm
    · intro q hq
      rcases List.mem_cons.mp hq with rfl | hq'
      · exact foldlMax_init_le rest q
      · exact foldlMax_le rest p q hq'
    · rcases foldlMax_first rest p with he | ⟨hlt, hfind⟩
      · rw [he, List.find?_cons_of_pos _ (by simp)]
      · rw [List.find?_cons_of_neg _ (by simp [Nat.ne_of_lt hlt]), hfind]

/-- The dominant structure name is one of the five configured names. -/
lemma topStructure_name_mem (videos : List Video) :
    (pyMaxBySnd (titleStructurePairs videos)).1 ∈
      ["question", "number", "how_to", "list", "emotional"] := by
  have hne : titleStructurePairs videos ≠ [] := by simp [titleStructurePairs]
  have h := (pyMaxBySnd_isMax (titleStructurePairs videos) hne).1
  have hmap : ∀ q ∈ titleStructurePairs videos,
      q.1 ∈ ["question", "number", "how_to", "list", "emotional"] := by
    intro q hq
    simp only [titleStructurePairs, List.mem_cons] at hq
    rcases hq with rfl | rfl | rfl | rfl | rfl | hq
    · simp
    · simp
    · simp
    · simp
    · simp
    · cases hq
  exact hmap _ h

/-- A structure-pattern name never collides with the other pattern names. -/
lemma structure_name_ne (s : String)
    (hs : s ∈ ["question", "number", "how_to", "list", "emotional"]) :
    s ++ "_structure" ≠ "clear_transitions" ∧ s ++ "_structure" ≠ "verbal_cta" ∧
      s ++ "_structure" ≠ "hook_length" ∧ s ++ "_structure" ≠ "speaking_pace" := by
  fin_cases hs <;> exact ⟨by decide, by decide, by decide, by decide⟩

/-- The pattern list of the aggregator, written with its conditional blocks
explicit (definitional unfolding of `analyzeContentDna`). -/
lemma contentDnaPatterns_shape (videos : List Video) (niche now : String) :
    (analyzeContentDna videos niche now).content_dna_patterns =
      (if 0 < (pyMaxBySnd (titleStructurePairs videos)).2 then
        [⟨"title", (pyMaxBySnd (titleStructurePairs videos)).1 ++ "_structure",
          some (((pyMaxBySnd (titleStructurePairs videos)).2 : ℚ) / (videos.length : ℚ) * 100),
          none,
          "Use a " ++ (pyMaxBySnd (titleStructurePairs videos)).1 ++
            " structure in your title"⟩]
      else []) ++
      (if 50 < (scriptStatsOf videos).stats.transitions_pct then
        [⟨"script", "clear_transitions", some (scriptStatsOf videos).stats.transitions_pct,
          none, "Use clear transition phrases between sections of your script"⟩]
      else []) ++
      (if 50 < (scriptStatsOf videos).stats.cta_pct then
        [⟨"script", "verbal_cta", some (scriptStatsOf videos).stats.cta_pct, none,
          "Include verbal calls to action in your script"⟩]
      else []) ++
      [⟨"script", "hook_length", none, some (scriptStatsOf videos).stats.avg_hook_words,
        "Use a hook of approximately " ++
          toString (pyInt (scriptStatsOf videos).stats.avg_hook_words) ++ " words"⟩,
      ⟨"script", "speaking_pace", none, some (scriptStatsOf videos).stats.avg_wpm,
        "Aim for a speaking pace of " ++
          toString (pyInt (scriptStatsOf videos).stats.avg_wpm) ++ " words per minute"⟩] :=
  rfl

/-- C7: for a non-empty input the pattern list contains `hook_length` and
`speaking_pace` always, `clear_transitions` iff the transitions percentage
exceeds 50, `verbal_cta` iff the CTA percentage exceeds 50, and a title entry
iff the maximal title-structure count is positive — that entry naming the
first structure (in the order question, number, how_to, list, emotional)
achieving the maximal count; no other entries appear. -/
theorem contentDnaPatterns_membership (videos : List Video) (niche now : String)
    (_hne : videos ≠ []) :
    "hook_length" ∈ (analyzeContentDna videos niche now).content_dna_patterns.map (·.pattern) ∧
    "speaking_pace" ∈ (analyzeContentDna videos niche now).content_dna_patterns.map (·.pattern) ∧
    ("clear_transitions" ∈
        (analyzeContentDna videos niche now).content_dna_patterns.map (·.pattern) ↔
      50 < (analyzeContentDna videos niche now).script_dna.stats.transitions_pct) ∧
    ("verbal_cta" ∈
        (analyzeContentDna videos niche now).content_dna_patterns.map (·.pattern) ↔
      50 < (analyzeContentDna videos niche now).script_dna.stats.cta_pct) ∧
    ((∃ e ∈ (analyzeContentDna videos niche now).content_dna_patterns, e.element = "title") ↔
      0 < (pyMaxBySnd (titleStructurePairs videos)).2) ∧
    (∀ e ∈ (analyzeContentDna videos niche now).content_dna_patterns, e.element = "title" →
      e.pattern = (pyMaxBySnd (titleStructurePairs videos)).1 ++ "_structure") ∧
    (∀ e ∈ (analyzeContentDna videos niche now).content_dna_patterns,
      e.pattern ∈ [(pyMaxBySnd (titleStructurePairs videos)).1 ++ "_structure",
        "clear_transitions", "verbal_cta", "hook_length", "speaking_pace"]) ∧
    (pyMaxBySnd (titleStructurePairs videos) ∈ titleStructurePairs videos ∧
      (∀ q ∈ titleStructurePairs videos, q.2 ≤ (pyMaxBySnd (titleStructurePairs videos)).2) ∧
      (titleStructurePairs videos).find?
          (fun q => q.2 == (pyMaxBySnd (titleStructurePairs videos)).2) =
        some (pyMaxBySnd (titleStructurePairs videos))) := by
  have hshape := contentDnaPatterns_shape videos niche now
  have hproj : (analyzeContentDna videos niche now).script_dna.stats =
      (scriptStatsOf videos).stats := rfl
  have hpairs_ne : titleStructurePairs videos ≠ [] := by simp [titleStructurePairs]
  have hmax := pyMaxBySnd_isMax (titleStructurePairs videos) hpairs_ne
  obtain ⟨hn1, hn2, hn3, hn4⟩ := structure_name_ne _ (topStructure_name_mem videos)
  have hn1' : "clear_transitions" ≠ (pyMaxBySnd (titleStructurePairs videos)).1 ++ "_structure" :=
    Ne.symm hn1
  have hn2' : "verbal_cta" ≠ (pyMaxBySnd (titleStructurePairs videos)).1 ++ "_structure" :=
    Ne.symm hn2
  have hn3' : "hook_length" ≠ (pyMaxBySnd (titleStructurePairs videos)).1 ++ "_structure" :=
    Ne.symm hn3
  have hn4' : "speaking_pace" ≠ (pyMaxBySnd (titleStructurePairs videos)).1 ++ "_structure" :=
    Ne.symm hn4
  refine ⟨?_, ?_, ?_, ?_, ?_, ?_, ?_, hmax⟩ <;>
    by_cases h1 : 0 < (pyMaxBySnd (titleStructurePairs videos)).2 <;>
    by_cases h2 : 50 < (scriptStatsOf videos).stats.transitions_pct <;>
    by_cases h3 : 50 < (scriptStatsOf videos).stats.cta_pct <;>
    simp [hshape, hproj, h1, h2, h3, hn1, hn2, hn3, hn4, hn1', hn2', hn3', hn4']

/-- C7 witness: a single how-to record (transitions and CTA stay at their
baselines 60 and 80, both above 50; the how-to count 1 is maximal). -/
theorem contentDnaPatterns_membership_witness :
    "hook_length" ∈ (analyzeContentDna [{ title := "How to Win" }] "productivity"
        "2024-01-01 00:00:00").content_dna_patterns.map (·.pattern) ∧
    "speaking_pace" ∈ (analyzeContentDna [{ title := "How to Win" }] "productivity"
        "2024-01-01 00:00:00").content_dna_patterns.map (·.pattern) ∧
    ("clear_transitions" ∈ (analyzeContentDna [{ title := "How to Win" }] "productivity"
        "2024-01-01 00:00:00").content_dna_patterns.map (·.pattern) ↔
      50 < (analyzeContentDna [{ title := "How to Win" }] "productivity"
        "2024-01-01 00:00:00").script_dna.stats.transitions_pct) ∧
    ("verbal_cta" ∈ (analyzeContentDna [{ title := "How to Win" }] "productivity"
        "2024-01-01 00:00:00").content_dna_patterns.map (·.pattern) ↔
      50 < (analyzeContentDna [{ title := "How to Win" }] "productivity"
        "2024-01-01 00:00:00").script_dna.stats.cta_pct) ∧
    ((∃ e ∈ (analyzeContentDna [{ title := "How to Win" }] "productivity"
        "2024-01-01 00:00:00").content_dna_patterns, e.element = "title") ↔
      0 < (pyMaxBySnd (titleStructurePairs [{ title := "How to Win" }])).2) ∧
    (∀ e ∈ (analyzeContentDna [{ title := "How to Win" }] "productivity"
        "2024-01-01 00:00:00").content_dna_patterns, e.element = "title" →
      e.pattern = (pyMaxBySnd (titleStructurePairs [{ title := "How to Win" }])).1 ++
        "_structure") ∧
    (∀ e ∈ (analyzeContentDna [{ title := "How to Win" }] "productivity"
        "2024-01-01 00:00:00").content_dna_patterns,
      e.pattern ∈ [(pyMaxBySnd (titleStructurePairs [{ title := "How to Win" }])).1 ++
        "_structure", "clear_transitions", "verbal_cta", "hook_length", "speaking_pace"]) ∧
    (pyMaxBySnd (titleStructurePairs [{ title := "How to Win" }]) ∈
        titleStructurePairs [{ title := "How to Win" }] ∧
      (∀ q ∈ titleStructurePairs [{ title := "How to Win" }],
        q.2 ≤ (pyMaxBySnd (titleStructurePairs [{ title := "How to Win" }])).2) ∧
      (titleStructurePairs [{ title := "How to Win" }]).find?
          (fun q => q.2 == (pyMaxBySnd (titleStructurePairs [{ title := "How to Win" }])).2) =
        some (pyMaxBySnd (titleStructurePairs [{ title := "How to Win" }]))) :=
  contentDnaPatterns_membership [{ title := "How to Win" }] "productivity"
    "2024-01-01 00:00:00" (by decide)

/-! ## C9: zero views never divide -/

/-- C9: when the engagement `view_count` is 0 (or the key is absent), the
transformer omits the `engagement_metrics` field entirely — the ratio
division sits behind the `view_count > 0` guard — and the pattern identifier
appends no engagement-pattern entries.  Both embedded functions are total, so
no `ZeroDivisionError` path exists. -/
theorem zero_views_no_ratios (a : ApiAnalysis) (niche : String) (e : ApiEngagement)
    (ha : ((a.metadata.getD {}).engagement.getD {}).view_count.getD 0 = 0)
    (he : e.view_count.getD 0 = 0) :
    (transformToCompetitorFormat a niche).engagement_metrics = none ∧
    identifyEngagementPatterns e = [] := by
  constructor
  · cases hm : a.metadata with
    | none => simp [transformToCompetitorFormat, hm]
    | some md =>
      cases heng : md.engagement with
      | none => simp [transformToCompetitorFormat, hm, heng]
      | some eng =>
        rw [hm, Option.getD_some, heng, Option.getD_some] at ha
        simp [transformToCompetitorFormat, hm, heng, ha]
  · simp [identifyEngagementPatterns, he]

/-- C9 witness: a record reporting zero views. -/
theorem zero_views_no_ratios_witness :
    (transformToCompetitorFormat
        { metadata := some { engagement := some { view_count := some 0, like_count := some 7 } } }
        "productivity").engagement_metrics = none ∧
    identifyEngagementPatterns { view_count := some 0, like_count := some 7 } = [] :=
  zero_views_no_ratios
    { metadata := some { engagement := some { view_count := some 0, like_count := some 7 } } }
    "productivity" { view_count := some 0, like_count := some 7 } (by rfl) (by rfl)

end YCO
